import Mathlib

/-!
Verification of the wall-split-face pipeline.

Shallow embedding of `src/main_script.py` and `src/utils.py`.  Geometry
values are modelled over `ℚ` (the scripts' floats), a curve by its two
ordered endpoints, and a curve loop by a list of curves.  Host-API calls
that live outside the repository (room containment queries, the split
mutation, the geometry kernel's tolerance) are taken as parameters; the
loop validation predicates follow the spec's tolerance-based definitions
of closure and planarity.  Distance comparisons against the tolerance
`T` are modelled by comparing squared distances against `T^2`, which is
equivalent for the positive tolerances the host supplies.
-/

namespace WallSplit

/-- 3D point / vector (Revit `XYZ`), with exact rational coordinates. -/
structure XYZ where
  x : ℚ
  y : ℚ
  z : ℚ
deriving DecidableEq

/-- Vector addition (`XYZ.Add`). -/
def XYZ.add (a b : XYZ) : XYZ := ⟨a.x + b.x, a.y + b.y, a.z + b.z⟩

/-- Vector difference. -/
def XYZ.sub (a b : XYZ) : XYZ := ⟨a.x - b.x, a.y - b.y, a.z - b.z⟩

/-- Scalar multiple (`XYZ.Multiply`). -/
def XYZ.mult (a : XYZ) (k : ℚ) : XYZ := ⟨k * a.x, k * a.y, k * a.z⟩

/-- Dot product (`XYZ.DotProduct`). -/
def XYZ.dot (a b : XYZ) : ℚ := a.x * b.x + a.y * b.y + a.z * b.z

/-- Cross product, used to decide coplanarity of vertex sets. -/
def XYZ.cross (a b : XYZ) : XYZ :=
  ⟨a.y * b.z - a.z * b.y, a.z * b.x - a.x * b.z, a.x * b.y - a.y * b.x⟩

/-- Squared Euclidean distance; `DistanceTo(p) < t` is modelled as
`dist2 _ p < t^2`. -/
def dist2 (a b : XYZ) : ℚ :=
  (a.x - b.x) ^ 2 + (a.y - b.y) ^ 2 + (a.z - b.z) ^ 2

/-- A bounded curve, abstracted to its two ordered endpoints
(`GetEndPoint(0)` / `GetEndPoint(1)`). -/
structure Curve where
  s : XYZ
  e : XYZ
deriving DecidableEq

/-- Rigid translation of a curve (`Transform.CreateTranslation` applied
via `CurveLoop.CreateViaTransform`). -/
def Curve.translate (c : Curve) (v : XYZ) : Curve := ⟨c.s.add v, c.e.add v⟩

/-- Endpoint-order reversal (`Curve.CreateReversed`). -/
def Curve.rev (c : Curve) : Curve := ⟨c.e, c.s⟩

/-- A face: planarity flag (`isinstance(face, PlanarFace)`), outward
normal (`FaceNormal`), parametric center (`face.Evaluate(UV(0.5, 0.5))`)
and boundary loops (`EdgeLoops`, each edge taken `AsCurve()`). -/
structure Face where
  planar : Bool
  normal : XYZ
  center : XYZ
  edgeLoops : List (List Curve)
deriving DecidableEq

/-- A geometry object returned by `wall.get_Geometry` : either a `Solid`
carrying faces, or some other geometry kind. -/
inductive GeoObj where
  | solid (faces : List Face)
  | other
deriving DecidableEq

/-- `EPSILONS = [0.01, 0.1, 0.5, 1.0]` (main_script.py line 38). -/
def EPSILONS : List ℚ := [1 / 100, 1 / 10, 1 / 2, 1]

/-- `MM_TO_FEET = 1 / 304.8` (main_script.py line 39), kept exact. -/
def MM_TO_FEET : ℚ := 1 / (3048 / 10)

/-- All digits helper for the decimal parser. -/
def allDigits (cs : List Char) : Bool := cs.all Char.isDigit

/-- Value of a digit string. -/
def natOfDigits (cs : List Char) : ℕ :=
  cs.foldl (fun a c => a * 10 + (c.toNat - 48)) 0

/-- Unsigned part of the decimal parser: digits with at most one dot,
at least one digit overall. -/
def parseUnsigned (body : List Char) : Option ℚ :=
  let intPart := body.takeWhile (fun c => c != '.')
  let rest := body.dropWhile (fun c => c != '.')
  match rest with
  | [] =>
      if !body.isEmpty && allDigits body then some ((natOfDigits body : ℤ) : ℚ)
      else none
  | _ :: frac =>
      if (!intPart.isEmpty || !frac.isEmpty) && allDigits intPart && allDigits frac
          && frac.all (fun c => c != '.') then
        some (((natOfDigits intPart : ℤ) : ℚ) + (natOfDigits frac : ℚ) / 10 ^ frac.length)
      else none

/-- Modelled from the spec: "Parse as a decimal number" — the behaviour
of Python `float(value)` on the free-text attribute (an external
builtin): an optional sign followed by decimal digits with at most one
decimal point.  (Exotic accepted forms such as exponents, `inf`/`nan`
and surrounding whitespace are outside the inputs this development
evaluates.) -/
def parseDecimal (s : String) : Option ℚ :=
  match s.toList with
  | [] => Option.none
  | c :: body =>
    if c = '-' then (parseUnsigned body).map (fun q => -q)
    else if c = '+' then parseUnsigned body
    else parseUnsigned (c :: body)

/-- Revit parameter storage kinds. -/
inductive StorageType where
  | none
  | integer
  | double
  | string
  | elementId
deriving DecidableEq

/-- A room parameter as observed by the script: its storage kind and the
result of `AsString()` (`Option.none` models a .NET null for an unset
text value). -/
structure Param where
  storageType : StorageType
  asString : Option String
deriving DecidableEq

namespace MainScript

/-- A room as observed by `main_script.py`: the result of
`LookupParameter("Headroom Requirement")`, `Option.none` when the
parameter does not exist. -/
structure Room where
  headroom : Option Param
deriving DecidableEq

/-- Result of `calculate_room_height`: the Python function either raises
(`raised`, an exception escaping the function), logs and returns `None`
(`invalid`), or returns a float (`ok`). -/
inductive HeightOut where
  | raised
  | invalid
  | ok (h : ℚ)
deriving DecidableEq

/-- `calculate_room_height` (main_script.py lines 85-100).  The `try`
only catches `ValueError`; `float(None)` raises `TypeError`, which
escapes, hence the `raised` branch when `AsString()` yields null. -/
def calculate_room_height (room : Room) : HeightOut :=
  match room.headroom with
  | Option.none => .invalid
  | Option.some p =>
    match p.storageType, p.asString with
    | StorageType.string, Option.none => .raised
    | StorageType.string, Option.some v =>
        match parseDecimal v with
        | Option.none => .invalid
        | Option.some q => .ok (q * MM_TO_FEET)
    | _, _ => .invalid

/-- `get_vertical_faces` (main_script.py lines 49-61), applied to the
wall's geometry objects: keeps planar faces whose normal has
`|normal ⬝ BasisZ| < 0.01`. -/
def get_vertical_faces (geo : List GeoObj) : List Face :=
  geo.flatMap fun g =>
    match g with
    | GeoObj.solid fs => fs.filter (fun f => f.planar && decide (|f.normal.z| < 1 / 100))
    | GeoObj.other => []

/-- The probe loop of `get_adjacent_room` (main_script.py lines 68-80):
for each offset magnitude try the positive then the negative normal
offset against the host's `GetRoomAtPoint`. -/
def probe {R : Type} (roomAt : XYZ → Option R) (p n : XYZ) : List ℚ → Option R
  | [] => Option.none
  | eps :: rest =>
    match roomAt (p.add (n.mult eps)) with
    | Option.some r => Option.some r
    | Option.none =>
      match roomAt (p.add (n.mult (-eps))) with
      | Option.some r => Option.some r
      | Option.none => probe roomAt p n rest

/-- `get_adjacent_room` (main_script.py lines 63-83); the host's
room-containment query is a parameter. -/
def get_adjacent_room {R : Type} (roomAt : XYZ → Option R) (face : Face) : Option R :=
  probe roomAt face.center face.normal EPSILONS

/-- Distinguishable failure exits of `create_split_profile` (the Python
function returns `None` after a distinct log message for each):
`heightOutOfRange` (line 116), `noBottomCurves` (line 133),
`invalidLoop` (line 176), and `pyError` for the `except` handler at
line 180 that converts any escaped exception into `None`. -/
inductive SplitReason where
  | heightOutOfRange
  | noBottomCurves
  | invalidLoop
  | pyError
deriving DecidableEq

/-- Result of `create_split_profile`: a curve loop, or `None` with one
of the distinguishable failure logs. -/
inductive SplitResult where
  | ok (p : List Curve)
  | fail (r : SplitReason)
deriving DecidableEq

/-- Outcome of the `try` body of `create_split_profile` before the
`except` handler runs: an escaped exception, or a normal return. -/
inductive BodyOut where
  | raised
  | done (r : SplitResult)
deriving DecidableEq

/-- Both endpoints of every curve of a loop, in order (`all_points`,
main_script.py line 110). -/
def loopVerts (cs : List Curve) : List XYZ :=
  cs.flatMap fun c => [c.s, c.e]

/-- `min(p.Z for p in all_points)` over a vertex list (0 on an empty
list, which `create_split_profile_unguarded` never reaches). -/
def minZ : List XYZ → ℚ
  | [] => 0
  | p :: ps => ps.foldl (fun a q => min a q.z) p.z

/-- `max(p.Z for p in all_points)` over a vertex list. -/
def maxZ : List XYZ → ℚ
  | [] => 0
  | p :: ps => ps.foldl (fun a q => max a q.z) p.z

/-- `p1.DistanceTo(p2) < TOLERANCE`, via squared distances. -/
def shortDist (t : ℚ) (a b : XYZ) : Bool := decide (dist2 a b < t ^ 2)

/-- `abs(p.Z - min_z) < TOLERANCE`. -/
def nearZ (t zref : ℚ) (p : XYZ) : Bool := decide (|p.z - zref| < t)

/-- Bottom-chain selection (main_script.py lines 122-130): keep curves
with both endpoints within tolerance of `min_z`, dropping those shorter
than the tolerance. -/
def bottomCurves (t mz : ℚ) (curves : List Curve) : List Curve :=
  curves.filter fun c => nearZ t mz c.s && nearZ t mz c.e && !shortDist t c.s c.e

/-- Vertical connectors (main_script.py lines 143-161): for each pair of
a bottom curve and its translated top copy, a start connector then an
end connector, each skipped when shorter than the tolerance. -/
def verticalsOf (t : ℚ) (pairs : List (Curve × Curve)) : List Curve :=
  pairs.flatMap fun bt =>
    (if shortDist t bt.1.s bt.2.s then [] else [Curve.mk bt.1.s bt.2.s])
      ++ (if shortDist t bt.1.e bt.2.e then [] else [Curve.mk bt.1.e bt.2.e])

/-- Final assembly order (main_script.py lines 163-172): bottom chain,
all verticals forward, the top chain in reverse each curve reversed,
then all verticals in reverse each reversed. -/
def assembleProfile (bcs vls tcs : List Curve) : List Curve :=
  bcs ++ vls ++ tcs.reverse.map Curve.rev ++ vls.reverse.map Curve.rev

/-- `CurveLoop.IsClosed`, modelled from the spec: every consecutive
curve pair, including the wrap-around pair, shares an endpoint within
tolerance. -/
def isClosedLoop (t : ℚ) (cs : List Curve) : Bool :=
  (cs.zip (cs.rotate 1)).all fun pr => shortDist t pr.1.e pr.2.s

/-- Coplanarity of the difference vectors `ds` to a base vertex: all of
them lie in a common plane through the origin. -/
def coplanarAux (ds : List XYZ) : Bool :=
  match ds.find? (fun d => d != XYZ.mk 0 0 0) with
  | Option.none => true
  | Option.some v1 =>
    match (ds.map fun d => XYZ.cross v1 d).find? (fun n => n != XYZ.mk 0 0 0) with
    | Option.none => true
    | Option.some n => ds.all fun d => decide (XYZ.dot n d = 0)

/-- Exact coplanarity of a vertex set, the model of `CurveLoop.IsPlanar`
(spec: all vertices lie within tolerance of one plane; this check admits
exactly the vertex sets lying on a common plane). -/
def coplanar (vs : List XYZ) : Bool :=
  match vs with
  | [] => true
  | p0 :: rest => coplanarAux (rest.map fun p => p.sub p0)

/-- The translated copy of the bottom chain (`CurveLoop.CreateViaTransform`
with `Transform.CreateTranslation(XYZ(0, 0, height))`, main_script.py
lines 137-138). -/
def topCurves (t h : ℚ) (curves : List Curve) : List Curve :=
  (bottomCurves t (minZ (loopVerts curves)) curves).map fun c => c.translate (XYZ.mk 0 0 h)

/-- The loop assembled from the boundary `curves` of edge loop 0 at
target height `h`: bottom chain, verticals of the bottom/top pairs, and
the reversed chains, in the source's append order. -/
def assembledLoop (t h : ℚ) (curves : List Curve) : List Curve :=
  assembleProfile (bottomCurves t (minZ (loopVerts curves)) curves)
    (verticalsOf t ((bottomCurves t (minZ (loopVerts curves)) curves).zip (topCurves t h curves)))
    (topCurves t h curves)

/-- The `try` body of `create_split_profile` on the curves of edge
loop 0 (main_script.py lines 110-179): `min()`/`max()` over an empty
vertex sequence raise, everything else is total. -/
def buildFromLoop (t : ℚ) (curves : List Curve) (h : ℚ) : BodyOut :=
  if (loopVerts curves).isEmpty then .raised
  else if maxZ (loopVerts curves) - minZ (loopVerts curves) ≤ h ∨ h ≤ 0 then
    .done (.fail .heightOutOfRange)
  else if (bottomCurves t (minZ (loopVerts curves)) curves).isEmpty then
    .done (.fail .noBottomCurves)
  else if isClosedLoop t (assembledLoop t h curves)
      && coplanar (loopVerts (assembledLoop t h curves)) then
    .done (.ok (assembledLoop t h curves))
  else .done (.fail .invalidLoop)

/-- The `try` body of `create_split_profile` (main_script.py
lines 104-179): `EdgeLoops.get_Item(0)` raises on a face without edge
loops, otherwise the body runs on loop 0. -/
def create_split_profile_unguarded (t : ℚ) (face : Face) (h : ℚ) : BodyOut :=
  match face.edgeLoops with
  | [] => .raised
  | curves :: _ => buildFromLoop t curves h

/-- `create_split_profile` (main_script.py lines 102-182): the `try`
body with every escaped exception converted to a `None` return by the
`except` handler. -/
def create_split_profile (t : ℚ) (face : Face) (h : ℚ) : SplitResult :=
  match create_split_profile_unguarded t face h with
  | .raised => .fail .pyError
  | .done r => r

end MainScript

namespace Utils

/-- A room as observed by `utils.py`: `UnboundedHeight`, the offsets and
the elevations of `Level` and `UpperLimit`. -/
structure RoomB where
  unboundedHeight : ℚ
  baseOffset : ℚ
  limitOffset : ℚ
  levelElevation : ℚ
  upperLimitElevation : ℚ
deriving DecidableEq

/-- `calculate_room_height` (utils.py lines 34-40), Policy B: the
unbounded height when nonzero, otherwise the bounds difference. -/
def calculate_room_height (r : RoomB) : ℚ :=
  if r.unboundedHeight = 0 then
    (r.upperLimitElevation + r.limitOffset) - (r.levelElevation + r.baseOffset)
  else r.unboundedHeight

end Utils

namespace Pipeline

open MainScript

/-- The stage functions the main loop (main_script.py lines 189-212)
composes.  `Wall`, `FaceT`, `RoomT` and `FaceId` abstract the host's
element types; `splitFace` is the host mutation `doc.SplitFace`, whose
failure is an exception (`Except.error`). -/
structure Stages (Wall FaceT RoomT FaceId : Type) where
  faces : Wall → List FaceT
  roomOf : FaceT → Option RoomT
  heightOf : RoomT → HeightOut
  profileOf : FaceT → ℚ → SplitResult
  splitFace : FaceT → List Curve → Except Unit FaceId

/-- Entries the main loop appends to `logs` (each names only the wall,
as in the source messages). -/
inductive Log (Wall : Type) where
  | noRoom (w : Wall)
  | invalidHeight (w : Wall)
  | invalidProfile (w : Wall) (h : ℚ)
  | success (w : Wall) (h : ℚ)
  | wallError (w : Wall)
deriving DecidableEq

/-- One iteration of the face loop (main_script.py lines 192-209):
`Except.error` models an exception escaping to the wall-level handler,
`Except.ok` the appended log entries.  `if not height` treats both a
`None` and a `0.0` height as missing (Python falsiness). -/
def processFace {W F R I : Type} (st : Stages W F R I) (w : W) (f : F) :
    Except Unit (List (Log W)) :=
  match st.roomOf f with
  | Option.none => .ok [Log.noRoom w]
  | Option.some r =>
    match st.heightOf r with
    | HeightOut.raised => .error ()
    | HeightOut.invalid => .ok [Log.invalidHeight w]
    | HeightOut.ok h =>
      if h = 0 then .ok [Log.invalidHeight w]
      else
        match st.profileOf f h with
        | SplitResult.fail _ => .ok [Log.invalidProfile w h]
        | SplitResult.ok p =>
          match st.splitFace f p with
          | Except.error _ => .error ()
          | Except.ok _ => .ok [Log.success w h]

/-- The face loop under the wall-level `try` (main_script.py lines
190-212): an exception aborts the remaining faces of this wall and is
downgraded to a `wallError` log entry. -/
def processFaces {W F R I : Type} (st : Stages W F R I) (w : W) : List F → List (Log W)
  | [] => []
  | f :: fs =>
    match processFace st w f with
    | Except.error _ => [Log.wallError w]
    | Except.ok ls => ls ++ processFaces st w fs

/-- One iteration of the wall loop. -/
def processWall {W F R I : Type} (st : Stages W F R I) (w : W) : List (Log W) :=
  processFaces st w (st.faces w)

/-- The whole main loop over the collected walls. -/
def run_pipeline {W F R I : Type} (st : Stages W F R I) (walls : List W) : List (Log W) :=
  walls.flatMap (processWall st)

end Pipeline

open MainScript

/-! Concrete fixtures used by witnesses and counterexamples. -/

/-- Boundary of a rectangular side face: width 5 along x, vertical
extent `z ∈ [0, 10]`, lying in the plane `y = 0`. -/
def rectLoop : List Curve :=
  [⟨⟨0, 0, 0⟩, ⟨5, 0, 0⟩⟩, ⟨⟨5, 0, 0⟩, ⟨5, 0, 10⟩⟩,
   ⟨⟨5, 0, 10⟩, ⟨0, 0, 10⟩⟩, ⟨⟨0, 0, 10⟩, ⟨0, 0, 0⟩⟩]

/-- The rectangular side face itself. -/
def rectFace : Face :=
  ⟨true, ⟨0, 1, 0⟩, ⟨5 / 2, 0, 5⟩, [rectLoop]⟩

/-- A face whose geometry has no edge loops, so that
`EdgeLoops.get_Item(0)` raises. -/
def emptyFace : Face := ⟨true, ⟨1, 0, 0⟩, ⟨0, 0, 0⟩, []⟩

/-- The loop `create_split_profile` returns on `rectFace` with a target
height below the tolerance: the bottom curve followed by the reversed
translated copy, with no vertical connectors. -/
def degProfile : List Curve :=
  [⟨⟨0, 0, 0⟩, ⟨5, 0, 0⟩⟩, ⟨⟨5, 0, 1 / 200⟩, ⟨0, 0, 1 / 200⟩⟩]

/-- A room whose clearance attribute text is "2100". -/
def room2100 : MainScript.Room := ⟨Option.some ⟨StorageType.string, Option.some "2100"⟩⟩

/-- A room whose clearance attribute text is "0". -/
def roomZero : MainScript.Room := ⟨Option.some ⟨StorageType.string, Option.some "0"⟩⟩

/-- A room without the clearance attribute (`LookupParameter` returns
null). -/
def roomNoAttr : MainScript.Room := ⟨Option.none⟩

/-- A room whose clearance attribute exists with `String` storage but an
unset value, so `AsString()` returns null. -/
def roomNullValue : MainScript.Room := ⟨Option.some ⟨StorageType.string, Option.none⟩⟩

/-- A horizontal planar face (normal along the vertical axis), not a
side face. -/
def flatFace : Face := ⟨true, ⟨0, 0, 1⟩, ⟨0, 0, 0⟩, [rectLoop]⟩

/-- Wall geometry whose only solid carries only the horizontal face, so
no side face qualifies. -/
def geo1 : List GeoObj := [GeoObj.solid [flatFace]]

/-- Concrete stages: two faces per wall, the first bordering the room
without the clearance attribute, the second the room with text "2100";
profile construction and the split mutation succeed. -/
def st0 : Pipeline.Stages ℕ ℕ Room ℕ :=
  ⟨fun _ => [0, 1],
   fun f => if f = 0 then Option.some roomNoAttr else Option.some room2100,
   calculate_room_height,
   fun _ _ => .ok [],
   fun _ _ => .ok 0⟩

/-- Concrete stages whose side-face selector runs `get_vertical_faces`
on the degenerate geometry `geo1`. -/
def st1 : Pipeline.Stages ℕ Face Room ℕ :=
  ⟨fun _ => get_vertical_faces geo1,
   fun _ => Option.some room2100,
   calculate_room_height,
   fun _ _ => .ok [],
   fun _ _ => .ok 0⟩

/-- The probe point of `rectFace` at the smallest offset magnitude in
the positive normal direction. -/
def probePoint : XYZ := rectFace.center.add (rectFace.normal.mult (1 / 100))

/-- A containment query that knows one room, exactly at `probePoint`. -/
def roomAt0 : XYZ → Option ℕ := fun q => if q = probePoint then Option.some 7 else Option.none

/-! Helper lemmas. -/

theorem toListOf2100 : "2100".toList = ['2', '1', '0', '0'] := by decide

theorem toListOf0 : "0".toList = ['0'] := by decide

theorem natOfDigitsOf2100 : natOfDigits ['2', '1', '0', '0'] = 2100 := by decide

theorem natOfDigitsOf0 : natOfDigits ['0'] = 0 := by decide

theorem shortDist_eq_true (t : ℚ) (a b : XYZ) :
    shortDist t a b = true ↔ dist2 a b < t ^ 2 := by
  simp [shortDist]

theorem dist2_add_z (p : XYZ) (h : ℚ) : dist2 p (p.add (XYZ.mk 0 0 h)) = h ^ 2 := by
  simp [dist2, XYZ.add]

/-- When the target height is below the tolerance, every candidate
vertical connector between a bottom curve and its translated copy is
skipped. -/
theorem verticalsOf_translate_short (t h : ℚ) (hs : h ^ 2 < t ^ 2) (l : List Curve) :
    verticalsOf t (l.zip (l.map fun c => c.translate (XYZ.mk 0 0 h))) = [] := by
  induction l with
  | nil => rfl
  | cons c cs ih =>
    have hs1 : shortDist t c.s ((c.translate (XYZ.mk 0 0 h)).s) = true := by
      rw [shortDist_eq_true]
      show dist2 c.s (c.s.add (XYZ.mk 0 0 h)) < t ^ 2
      rw [dist2_add_z]
      exact hs
    have hs2 : shortDist t c.e ((c.translate (XYZ.mk 0 0 h)).e) = true := by
      rw [shortDist_eq_true]
      show dist2 c.e (c.e.add (XYZ.mk 0 0 h)) < t ^ 2
      rw [dist2_add_z]
      exact hs
    simp only [List.map_cons, List.zip_cons_cons, verticalsOf, List.flatMap_cons, hs1, hs2,
      if_true, List.nil_append]
    exact ih

theorem loopVerts_nonempty_of_bottom (t mz : ℚ) (curves : List Curve)
    (hb : (bottomCurves t mz curves).isEmpty = false) :
    (loopVerts curves).isEmpty = false := by
  cases curves with
  | nil => simp [bottomCurves] at hb
  | cons c cs => simp [loopVerts]

theorem XYZ.dot_sub (n a b : XYZ) : n.dot (a.sub b) = n.dot a - n.dot b := by
  simp [XYZ.dot, XYZ.sub]
  ring

/-- Every single vector admits a nonzero orthogonal vector. -/
theorem exists_nonzero_orthogonal (v : XYZ) :
    ∃ n : XYZ, n ≠ XYZ.mk 0 0 0 ∧ n.dot v = 0 := by
  by_cases hxy : v.x = 0 ∧ v.y = 0
  · refine ⟨XYZ.mk 1 0 0, ?_, ?_⟩
    · intro hcon
      rw [XYZ.mk.injEq] at hcon
      exact one_ne_zero hcon.1
    · simp [XYZ.dot, hxy.1]
  · refine ⟨XYZ.mk (-v.y) v.x 0, ?_, ?_⟩
    · intro hcon
      rw [XYZ.mk.injEq] at hcon
      exact hxy ⟨hcon.2.1, neg_eq_zero.mp hcon.1⟩
    · simp [XYZ.dot]
      ring

/-- A vector parallel to `v` is orthogonal to everything orthogonal to
`v`. -/
theorem dot_parallel_eq_zero (v d n : XYZ) (hc : v.cross d = XYZ.mk 0 0 0)
    (hv : v ≠ XYZ.mk 0 0 0) (hn : n.dot v = 0) : n.dot d = 0 := by
  rw [XYZ.cross, XYZ.mk.injEq] at hc
  obtain ⟨h1, h2, h3⟩ := hc
  rw [XYZ.dot] at hn ⊢
  have hv' : ¬(v.x = 0 ∧ v.y = 0 ∧ v.z = 0) := by
    intro hcon
    refine hv ?_
    cases v
    simp_all
  by_cases hx : v.x = 0
  · by_cases hy : v.y = 0
    · have hz : v.z ≠ 0 := fun hz => hv' ⟨hx, hy, hz⟩
      have key : (n.x * d.x + n.y * d.y + n.z * d.z) * v.z = 0 := by
        linear_combination d.z * hn + n.x * h2 - n.y * h1
      rcases mul_eq_zero.mp key with hgoal | hbad
      · exact hgoal
      · exact absurd hbad hz
    · have key : (n.x * d.x + n.y * d.y + n.z * d.z) * v.y = 0 := by
        linear_combination d.y * hn - n.x * h3 + n.z * h1
      rcases mul_eq_zero.mp key with hgoal | hbad
      · exact hgoal
      · exact absurd hbad hy
  · have key : (n.x * d.x + n.y * d.y + n.z * d.z) * v.x = 0 := by
      linear_combination d.x * hn + n.y * h3 - n.z * h2
    rcases mul_eq_zero.mp key with hgoal | hbad
    · exact hgoal
    · exact absurd hbad hx

/-- Soundness of `coplanarAux`: a passing difference-vector list lies in
a common plane through the origin. -/
theorem coplanarAux_spec (ds : List XYZ) (h : coplanarAux ds = true) :
    ∃ n : XYZ, n ≠ XYZ.mk 0 0 0 ∧ ∀ d ∈ ds, n.dot d = 0 := by
  unfold coplanarAux at h
  split at h
  case h_1 hf =>
    refine ⟨XYZ.mk 1 0 0, ?_, ?_⟩
    · intro hcon
      rw [XYZ.mk.injEq] at hcon
      exact one_ne_zero hcon.1
    · intro d hd
      have hd0 : d = XYZ.mk 0 0 0 := by
        have := List.find?_eq_none.mp hf d hd
        simpa using this
      rw [hd0]
      simp [XYZ.dot]
  case h_2 v1 hf =>
    have hv1 : v1 ≠ XYZ.mk 0 0 0 := by
      have := List.find?_some hf
      simpa using this
    split at h
    case h_1 hg =>
      obtain ⟨n, hn0, hnv⟩ := exists_nonzero_orthogonal v1
      refine ⟨n, hn0, ?_⟩
      intro d hd
      have hcz : XYZ.cross v1 d = XYZ.mk 0 0 0 := by
        have := List.find?_eq_none.mp hg (XYZ.cross v1 d) (List.mem_map_of_mem _ hd)
        simpa using this
      exact dot_parallel_eq_zero v1 d n hcz hv1 hnv
    case h_2 n0 hg =>
      have hn0 : n0 ≠ XYZ.mk 0 0 0 := by
        have := List.find?_some hg
        simpa using this
      refine ⟨n0, hn0, ?_⟩
      intro d hd
      have := List.all_eq_true.mp h d hd
      simpa using this

/-- Soundness of `coplanar`: a passing vertex list lies on one plane. -/
theorem coplanar_spec (vs : List XYZ) (h : coplanar vs = true) :
    ∃ n d, n ≠ XYZ.mk 0 0 0 ∧ ∀ v ∈ vs, XYZ.dot n v = d := by
  cases vs with
  | nil =>
    refine ⟨XYZ.mk 1 0 0, 0, ?_, by simp⟩
    intro hcon
    rw [XYZ.mk.injEq] at hcon
    exact one_ne_zero hcon.1
  | cons p0 rest =>
    obtain ⟨n, hn0, hds⟩ :=
      coplanarAux_spec (rest.map fun p => p.sub p0)
        (show coplanarAux (rest.map fun p => p.sub p0) = true from h)
    refine ⟨n, n.dot p0, hn0, ?_⟩
    intro v hv
    rcases List.mem_cons.mp hv with rfl | hv'
    · rfl
    · have h0 : n.dot (v.sub p0) = 0 := hds _ (List.mem_map_of_mem _ hv')
      rw [XYZ.dot_sub] at h0
      linarith

/-- Soundness of `isClosedLoop`: every consecutive pair (cyclically)
meets within the tolerance. -/
theorem isClosedLoop_spec (t : ℚ) (cs : List Curve) (h : isClosedLoop t cs = true)
    (i : Fin cs.length) :
    dist2 (cs.get i).e (cs.get ⟨(i.val + 1) % cs.length, Nat.mod_lt _ i.pos⟩).s < t ^ 2 := by
  have hlen : (cs.rotate 1).length = cs.length := List.length_rotate cs 1
  have hi2 : i.val < (cs.rotate 1).length := by
    rw [hlen]
    exact i.isLt
  have hzl : i.val < (cs.zip (cs.rotate 1)).length := by
    rw [List.length_zip, hlen, Nat.min_self]
    exact i.isLt
  have hmem : (cs.get i, (cs.rotate 1).get ⟨i.val, hi2⟩) ∈ cs.zip (cs.rotate 1) := by
    have hget : (cs.zip (cs.rotate 1)).get ⟨i.val, hzl⟩
        = (cs.get i, (cs.rotate 1).get ⟨i.val, hi2⟩) := by
      simp [List.getElem_zip]
    rw [← hget]
    exact List.get_mem _ _ _
  have hall := List.all_eq_true.mp h _ hmem
  rw [shortDist_eq_true] at hall
  have hrot : (cs.rotate 1).get ⟨i.val, hi2⟩
      = cs.get ⟨(i.val + 1) % cs.length, Nat.mod_lt _ i.pos⟩ := by
    rw [List.get_rotate]
  rw [hrot] at hall
  exact hall

/-- `create_split_profile_unguarded` on a face without edge loops. -/
theorem unguarded_nil (t h : ℚ) (face : Face) (hE : face.edgeLoops = []) :
    create_split_profile_unguarded t face h = .raised := by
  unfold create_split_profile_unguarded
  rw [hE]

/-- `create_split_profile_unguarded` runs the body on edge loop 0. -/
theorem unguarded_cons (t h : ℚ) (face : Face) (curves : List Curve)
    (rest : List (List Curve)) (hE : face.edgeLoops = curves :: rest) :
    create_split_profile_unguarded t face h = buildFromLoop t curves h := by
  unfold create_split_profile_unguarded
  rw [hE]

/-- Inversion of a successful `create_split_profile`: the returned loop
passed the final closure and planarity validation. -/
theorem create_split_profile_ok_inv (t : ℚ) (face : Face) (h : ℚ) (p : List Curve)
    (hok : create_split_profile t face h = .ok p) :
    isClosedLoop t p = true ∧ coplanar (loopVerts p) = true := by
  have hb : create_split_profile_unguarded t face h = .done (.ok p) := by
    unfold create_split_profile at hok
    rcases hu : create_split_profile_unguarded t face h with _ | r
    · rw [hu] at hok
      simp at hok
    · rw [hu] at hok
      simp at hok
      rw [hok]
  rcases hE : face.edgeLoops with _ | ⟨curves, rest⟩
  · rw [unguarded_nil t h face hE] at hb
    exact BodyOut.noConfusion hb
  · rw [unguarded_cons t h face curves rest hE] at hb
    unfold buildFromLoop at hb
    split at hb
    · exact BodyOut.noConfusion hb
    · split at hb
      · simp at hb
      · split at hb
        · simp at hb
        · split at hb
          · rename_i hguard
            rw [Bool.and_eq_true] at hguard
            have hp : p = assembledLoop t h curves := by
              injection hb with hb'
              injection hb' with hb''
              exact hb''.symm
            rw [hp]
            exact ⟨hguard.1, hguard.2⟩
          · simp at hb

/-- The probe loop returns the first hit over the ordered candidate
list: positive then negative offset, smaller magnitudes first. -/
theorem probe_eq_findSome {R : Type} (roomAt : XYZ → Option R) (p n : XYZ) (eps : List ℚ) :
    probe roomAt p n eps
      = (eps.flatMap fun e => [p.add (n.mult e), p.add (n.mult (-e))]).findSome? roomAt := by
  induction eps with
  | nil => rfl
  | cons e rest ih =>
    simp only [List.flatMap_cons, List.cons_append, List.nil_append, probe,
      List.findSome?_cons]
    cases roomAt (p.add (n.mult e)) <;> cases roomAt (p.add (n.mult (-e))) <;> simp [ih]

/-! Claim theorems. -/

/-- Claim C5: `get_adjacent_room` probes, for each magnitude in the
ascending sequence `EPSILONS`, first the positive then the negative
normal offset of the face center, and returns the first room any probe
finds (so smaller magnitudes beat larger ones and the positive direction
beats the negative at the same magnitude); it returns `none` exactly
when every candidate point yields no room. -/
theorem get_adjacent_room_first_found {R : Type} (roomAt : XYZ → Option R) (face : Face) :
    get_adjacent_room roomAt face
      = (EPSILONS.flatMap fun e =>
          [face.center.add (face.normal.mult e),
           face.center.add (face.normal.mult (-e))]).findSome? roomAt
    ∧ (get_adjacent_room roomAt face = Option.none ↔
        ∀ e ∈ EPSILONS, roomAt (face.center.add (face.normal.mult e)) = Option.none
          ∧ roomAt (face.center.add (face.normal.mult (-e))) = Option.none)
    ∧ (∀ r, roomAt (face.center.add (face.normal.mult (1 / 100))) = Option.some r →
        get_adjacent_room roomAt face = Option.some r) := by
  have hmain := probe_eq_findSome roomAt face.center face.normal EPSILONS
  refine ⟨hmain, ?_, ?_⟩
  · rw [get_adjacent_room, hmain, List.findSome?_eq_none_iff]
    constructor
    · intro hall e he
      exact ⟨hall _ (List.mem_flatMap.mpr ⟨e, he, by simp⟩),
             hall _ (List.mem_flatMap.mpr ⟨e, he, by simp⟩)⟩
    · intro hall pt hpt
      obtain ⟨e, he, hpt'⟩ := List.mem_flatMap.mp hpt
      simp only [List.mem_cons, List.not_mem_nil, or_false] at hpt'
      rcases hpt' with h1 | h1 <;> rw [h1]
      · exact (hall e he).1
      · exact (hall e he).2
  · intro r hr
    rw [get_adjacent_room]
    show probe roomAt face.center face.normal [1 / 100, 1 / 10, 1 / 2, 1] = Option.some r
    rw [probe, hr]

/-- Witness for C5: a query that only knows a room at the smallest
positive offset of `rectFace` makes `get_adjacent_room` return it. -/
theorem get_adjacent_room_first_found_witness :
    get_adjacent_room roomAt0 rectFace = Option.some 7 :=
  (get_adjacent_room_first_found roomAt0 rectFace).2.2 7 (by simp [roomAt0, probePoint])

/-- Claim C4: with a nonempty outer boundary, `create_split_profile`
fails with the height-out-of-range failure exactly when the target
height is `≤ 0` or `≥` the boundary's vertical extent
`max_z - min_z`, both bounds strict. -/
theorem split_profile_height_range (t hgt : ℚ) (face : Face) (curves : List Curve)
    (rest : List (List Curve)) (hE : face.edgeLoops = curves :: rest) (hne : curves ≠ []) :
    create_split_profile t face hgt = .fail .heightOutOfRange ↔
      hgt ≤ 0 ∨ maxZ (loopVerts curves) - minZ (loopVerts curves) ≤ hgt := by
  have hvne : (loopVerts curves).isEmpty = false := by
    cases curves with
    | nil => exact absurd rfl hne
    | cons c cs => simp [loopVerts]
  have hu : create_split_profile_unguarded t face hgt = buildFromLoop t curves hgt :=
    unguarded_cons t hgt face curves rest hE
  rw [create_split_profile, hu, buildFromLoop, hvne]
  simp only [Bool.false_eq_true, if_false]
  by_cases hcond : maxZ (loopVerts curves) - minZ (loopVerts curves) ≤ hgt ∨ hgt ≤ 0
  · rw [if_pos hcond]
    exact ⟨fun _ => Or.symm hcond, fun _ => rfl⟩
  · rw [if_neg hcond]
    constructor
    · intro hfail
      by_cases hbc : (bottomCurves t (minZ (loopVerts curves)) curves).isEmpty = true
      · rw [if_pos hbc] at hfail
        simp at hfail
      · rw [if_neg hbc] at hfail
        by_cases hg : (isClosedLoop t (assembledLoop t hgt curves)
            && coplanar (loopVerts (assembledLoop t hgt curves))) = true
        · rw [if_pos hg] at hfail
          simp at hfail
        · rw [if_neg hg] at hfail
          simp at hfail
    · intro hr
      exact absurd (Or.symm hr) hcond

/-- Witness for C4: the rectangular face with extent 10 rejects the
target height -1. -/
theorem split_profile_height_range_witness :
    create_split_profile (1 / 100) rectFace (-1) = .fail .heightOutOfRange := by
  refine (split_profile_height_range (1 / 100) (-1) rectFace rectLoop [] rfl ?_).mpr ?_
  · simp [rectLoop]
  · exact Or.inl (by norm_num)

/-- Claim C1 (code bug): on the rectangular face with extent
`z ∈ [0, 10]` and target height 4, the code does not build the expected
4-curve profile.  It assembles the 6-curve sequence bottom, both
verticals forward, reversed top, both verticals reversed, whose
consecutive curves do not meet (the bottom curve ends at `(5,0,0)` while
the next appended vertical starts at `(0,0,0)`), so the final closure
check rejects the loop and `create_split_profile` returns the
invalid-loop failure (`None`). -/
theorem split_profile_rect_fails :
    assembledLoop (1 / 100) 4 rectLoop
      = [⟨⟨0, 0, 0⟩, ⟨5, 0, 0⟩⟩,
         ⟨⟨0, 0, 0⟩, ⟨0, 0, 4⟩⟩, ⟨⟨5, 0, 0⟩, ⟨5, 0, 4⟩⟩,
         ⟨⟨5, 0, 4⟩, ⟨0, 0, 4⟩⟩,
         ⟨⟨5, 0, 4⟩, ⟨5, 0, 0⟩⟩, ⟨⟨0, 0, 4⟩, ⟨0, 0, 0⟩⟩]
    ∧ isClosedLoop (1 / 100) (assembledLoop (1 / 100) 4 rectLoop) = false
    ∧ create_split_profile (1 / 100) rectFace 4 = .fail .invalidLoop := by
  refine ⟨?_, ?_, ?_⟩ <;>
    norm_num [create_split_profile, create_split_profile_unguarded, buildFromLoop,
      assembledLoop, topCurves, assembleProfile, loopVerts, minZ, maxZ, bottomCurves,
      verticalsOf, isClosedLoop, coplanar, coplanarAux, shortDist, nearZ, dist2, XYZ.add,
      XYZ.sub, XYZ.mult, XYZ.dot, XYZ.cross, Curve.translate, Curve.rev, rectFace, rectLoop,
      min_def, max_def, List.rotate]

/-- Claim C2: every profile `create_split_profile` returns successfully
is closed — consecutive curves, including the wrap-around pair, share an
endpoint within the tolerance — and planar — all of its vertices lie on
one plane (hence within any tolerance of it); no other loop is returned
as a success. -/
theorem split_profile_closed_planar (t hgt : ℚ) (face : Face) (p : List Curve)
    (hok : create_split_profile t face hgt = .ok p) :
    (∀ i : Fin p.length,
        dist2 (p.get i).e (p.get ⟨(i.val + 1) % p.length, Nat.mod_lt _ i.pos⟩).s < t ^ 2)
    ∧ ∃ n d, n ≠ XYZ.mk 0 0 0 ∧ ∀ v ∈ loopVerts p, XYZ.dot n v = d := by
  obtain ⟨hc, hpl⟩ := create_split_profile_ok_inv t face hgt p hok
  exact ⟨isClosedLoop_spec t p hc, coplanar_spec (loopVerts p) hpl⟩

/-- Witness for C2: the one success the model exhibits (target height
below the tolerance) and its closure/planarity facts. -/
theorem split_profile_closed_planar_witness :
    create_split_profile (1 / 100) rectFace (1 / 200) = .ok degProfile
    ∧ ((∀ i : Fin degProfile.length,
          dist2 (degProfile.get i).e
            (degProfile.get ⟨(i.val + 1) % degProfile.length, Nat.mod_lt _ i.pos⟩).s
              < (1 / 100 : ℚ) ^ 2)
        ∧ ∃ n d, n ≠ XYZ.mk 0 0 0 ∧ ∀ v ∈ loopVerts degProfile, XYZ.dot n v = d) := by
  have hok : create_split_profile (1 / 100) rectFace (1 / 200) = .ok degProfile := by
    norm_num [create_split_profile, create_split_profile_unguarded, buildFromLoop,
      assembledLoop, topCurves, assembleProfile, loopVerts, minZ, maxZ, bottomCurves,
      verticalsOf, isClosedLoop, coplanar, coplanarAux, shortDist, nearZ, dist2, XYZ.add,
      XYZ.sub, XYZ.mult, XYZ.dot, XYZ.cross, Curve.translate, Curve.rev, rectFace, rectLoop,
      degProfile, min_def, max_def, List.rotate]
  exact ⟨hok, split_profile_closed_planar (1 / 100) (1 / 200) rectFace degProfile hok⟩

/-- Counterexample to claim C3: with tolerance 0.01 and target height
0.005 on the rectangular face, every candidate vertical connector is
shorter than the tolerance and is eliminated, yet `create_split_profile`
does not fail at all — it returns the two-curve loop assembled from the
bottom curve and the reversed top copy. -/
theorem split_profile_no_connectors_counterexample :
    verticalsOf (1 / 100)
        ((bottomCurves (1 / 100) (minZ (loopVerts rectLoop)) rectLoop).zip
          (topCurves (1 / 100) (1 / 200) rectLoop)) = []
    ∧ create_split_profile (1 / 100) rectFace (1 / 200) = .ok degProfile
    ∧ ∀ r, create_split_profile (1 / 100) rectFace (1 / 200) ≠ .fail r := by
  have hok : create_split_profile (1 / 100) rectFace (1 / 200) = .ok degProfile := by
    norm_num [create_split_profile, create_split_profile_unguarded, buildFromLoop,
      assembledLoop, topCurves, assembleProfile, loopVerts, minZ, maxZ, bottomCurves,
      verticalsOf, isClosedLoop, coplanar, coplanarAux, shortDist, nearZ, dist2, XYZ.add,
      XYZ.sub, XYZ.mult, XYZ.dot, XYZ.cross, Curve.translate, Curve.rev, rectFace, rectLoop,
      degProfile, min_def, max_def, List.rotate]
  refine ⟨?_, hok, ?_⟩
  · norm_num [topCurves, bottomCurves, verticalsOf, loopVerts, minZ, maxZ, shortDist, nearZ,
      dist2, XYZ.add, Curve.translate, rectLoop, min_def, max_def]
  · intro r hr
    rw [hok] at hr
    exact SplitResult.noConfusion hr

/-- Amended claim C3: when every candidate vertical connector is shorter
than the tolerance, all connectors are eliminated and the loop is
assembled from just the bottom chain and the reversed top chain;
`create_split_profile` returns it when it passes the closure and
planarity validation and returns the generic invalid-loop failure
otherwise — there is no `NoConnectors` failure kind, and no loop that
fails the validation is ever returned. -/
theorem split_profile_all_connectors_short (t hgt : ℚ) (face : Face) (curves : List Curve)
    (rest : List (List Curve)) (hE : face.edgeLoops = curves :: rest)
    (hrange : ¬(maxZ (loopVerts curves) - minZ (loopVerts curves) ≤ hgt ∨ hgt ≤ 0))
    (hbne : (bottomCurves t (minZ (loopVerts curves)) curves).isEmpty = false)
    (hshort : hgt ^ 2 < t ^ 2) :
    verticalsOf t ((bottomCurves t (minZ (loopVerts curves)) curves).zip
        (topCurves t hgt curves)) = []
    ∧ (create_split_profile t face hgt = .fail .invalidLoop
       ∨ ∃ p, create_split_profile t face hgt = .ok p
           ∧ p = bottomCurves t (minZ (loopVerts curves)) curves
               ++ (topCurves t hgt curves).reverse.map Curve.rev
           ∧ isClosedLoop t p = true ∧ coplanar (loopVerts p) = true) := by
  have hv : verticalsOf t ((bottomCurves t (minZ (loopVerts curves)) curves).zip
      (topCurves t hgt curves)) = [] := by
    rw [topCurves]
    exact verticalsOf_translate_short t hgt hshort _
  have hvne := loopVerts_nonempty_of_bottom t (minZ (loopVerts curves)) curves hbne
  have hassembled : assembledLoop t hgt curves
      = bottomCurves t (minZ (loopVerts curves)) curves
          ++ (topCurves t hgt curves).reverse.map Curve.rev := by
    rw [assembledLoop, assembleProfile, hv]
    simp
  refine ⟨hv, ?_⟩
  rw [create_split_profile, unguarded_cons t hgt face curves rest hE, buildFromLoop, hvne]
  simp only [Bool.false_eq_true, if_false]
  rw [if_neg hrange, if_neg (by rw [hbne]; simp : ¬(bottomCurves t
      (minZ (loopVerts curves)) curves).isEmpty = true)]
  by_cases hg : (isClosedLoop t (assembledLoop t hgt curves)
      && coplanar (loopVerts (assembledLoop t hgt curves))) = true
  · right
    have hg' := hg
    rw [Bool.and_eq_true] at hg'
    refine ⟨assembledLoop t hgt curves, ?_, hassembled, hg'.1, hg'.2⟩
    rw [if_pos hg]
  · left
    rw [if_neg hg]

/-- Witness for the amended claim C3 at tolerance 0.01, height 0.005 on
the rectangular face. -/
theorem split_profile_all_connectors_short_witness :
    verticalsOf (1 / 100)
        ((bottomCurves (1 / 100) (minZ (loopVerts rectLoop)) rectLoop).zip
          (topCurves (1 / 100) (1 / 200) rectLoop)) = []
    ∧ (create_split_profile (1 / 100) rectFace (1 / 200) = .fail .invalidLoop
       ∨ ∃ p, create_split_profile (1 / 100) rectFace (1 / 200) = .ok p
           ∧ p = bottomCurves (1 / 100) (minZ (loopVerts rectLoop)) rectLoop
               ++ (topCurves (1 / 100) (1 / 200) rectLoop).reverse.map Curve.rev
           ∧ isClosedLoop (1 / 100) p = true ∧ coplanar (loopVerts p) = true) := by
  refine split_profile_all_connectors_short (1 / 100) (1 / 200) rectFace rectLoop [] rfl
    ?_ ?_ (by norm_num)
  · norm_num [loopVerts, minZ, maxZ, rectLoop, min_def, max_def]
  · norm_num [bottomCurves, loopVerts, minZ, nearZ, shortDist, dist2, rectLoop, min_def,
      max_def]

/-- Claim C6 (code bug): under Policy A an absent clearance parameter
yields the invalid-height failure, and text "2100" resolves to exactly
`2100 * (1/304.8)` internal units; but a parameter that exists with
`String` storage and an unset value makes `float(None)` raise an
uncaught `TypeError` (the `except` clause only catches `ValueError`),
so the function raises instead of returning the claimed
InvalidHeightValue failure. -/
theorem room_height_policyA_eval :
    calculate_room_height roomNullValue = .raised
    ∧ calculate_room_height roomNoAttr = .invalid
    ∧ calculate_room_height room2100 = .ok (2100 * MM_TO_FEET) := by
  refine ⟨by norm_num [calculate_room_height, roomNullValue],
    by norm_num [calculate_room_height, roomNoAttr], ?_⟩
  norm_num +decide [calculate_room_height, room2100, parseDecimal, parseUnsigned, allDigits,
    MM_TO_FEET, toListOf2100, natOfDigitsOf2100]

/-- Counterexample to claim C7: the room whose clearance text is "0"
resolves successfully to the height 0, which is not strictly
positive. -/
theorem room_height_zero_counterexample :
    calculate_room_height roomZero = .ok 0 ∧ ¬(0 : ℚ) < 0 := by
  refine ⟨?_, lt_irrefl 0⟩
  norm_num +decide [calculate_room_height, roomZero, parseDecimal, parseUnsigned, allDigits,
    MM_TO_FEET, toListOf0, natOfDigitsOf0]

/-- Amended claim C7: a successful Policy A resolution returns the
parsed text value times `1/304.8`, which is positive exactly when the
parsed value is positive (so "0" or a negative text defeats positivity);
Policy B returns the room's unbounded height when it is nonzero and the
bounds difference otherwise, with no positivity guarantee either. -/
theorem room_height_sign :
    (∀ r hgt, calculate_room_height r = .ok hgt →
        ∃ p s q, r.headroom = Option.some p ∧ p.storageType = StorageType.string
          ∧ p.asString = Option.some s ∧ parseDecimal s = Option.some q
          ∧ hgt = q * MM_TO_FEET ∧ (0 < hgt ↔ 0 < q))
    ∧ (∀ rb : Utils.RoomB, rb.unboundedHeight = 0 →
        Utils.calculate_room_height rb
          = (rb.upperLimitElevation + rb.limitOffset) - (rb.levelElevation + rb.baseOffset))
    ∧ (∀ rb : Utils.RoomB, rb.unboundedHeight ≠ 0 →
        Utils.calculate_room_height rb = rb.unboundedHeight) := by
  have hMM : (0 : ℚ) < MM_TO_FEET := by norm_num [MM_TO_FEET]
  refine ⟨?_, ?_, ?_⟩
  · intro r hgt hok
    obtain ⟨_ | ⟨pst, pas⟩⟩ := r
    · exact absurd hok (by simp [calculate_room_height])
    · cases pst
      case string =>
        rcases pas with _ | v
        · exact absurd hok (by simp [calculate_room_height])
        · rcases hq : parseDecimal v with _ | q
          · exact absurd hok (by simp [calculate_room_height, hq])
          · have hok' : HeightOut.ok (q * MM_TO_FEET) = HeightOut.ok hgt := by
              rw [← hok]
              simp [calculate_room_height, hq]
            have hval : hgt = q * MM_TO_FEET := by
              injection hok' with h'
              exact h'.symm
            refine ⟨⟨StorageType.string, Option.some v⟩, v, q, rfl, rfl, rfl, hq, hval, ?_⟩
            rw [hval]
            constructor
            · intro h0
              nlinarith
            · intro h0
              exact mul_pos h0 hMM
      all_goals exact absurd hok (by simp [calculate_room_height])
  · intro rb h0
    unfold Utils.calculate_room_height
    rw [if_pos h0]
  · intro rb h0
    unfold Utils.calculate_room_height
    rw [if_neg h0]

/-- Witness for the amended claim C7: the "2100" room under Policy A and
the test room of `test_utils.py` under Policy B. -/
theorem room_height_sign_witness :
    (∃ p s q, room2100.headroom = Option.some p ∧ p.storageType = StorageType.string
        ∧ p.asString = Option.some s ∧ parseDecimal s = Option.some q
        ∧ (2100 : ℚ) * MM_TO_FEET = q * MM_TO_FEET ∧ (0 < (2100 : ℚ) * MM_TO_FEET ↔ 0 < q))
    ∧ Utils.calculate_room_height ⟨0, 1, 2, 0, 10⟩ = (10 + 2) - (0 + 1) := by
  constructor
  · refine room_height_sign.1 room2100 ((2100 : ℚ) * MM_TO_FEET) ?_
    norm_num +decide [calculate_room_height, room2100, parseDecimal, parseUnsigned,
      allDigits, MM_TO_FEET, toListOf2100, natOfDigitsOf2100]
  · exact room_height_sign.2.1 ⟨0, 1, 2, 0, 10⟩ rfl

/-- Claim C8: every stage failure is recorded and the pipeline
continues: a missing room, an invalid height or a failed profile are
logged and the next face of the same wall is processed; an exception
(raised height resolution or a rejected split mutation) is downgraded to
a wall-level error entry and the next wall is processed; the run over
the remaining walls is never aborted.  Under Policy A a room without the
clearance attribute produces exactly the invalid-height failure. -/
theorem pipeline_failure_isolation {W F R I : Type} (st : Pipeline.Stages W F R I) (w : W) :
    (∀ f fs, st.roomOf f = Option.none →
        Pipeline.processFaces st w (f :: fs)
          = Pipeline.Log.noRoom w :: Pipeline.processFaces st w fs)
    ∧ (∀ f fs r, st.roomOf f = Option.some r → st.heightOf r = HeightOut.invalid →
        Pipeline.processFaces st w (f :: fs)
          = Pipeline.Log.invalidHeight w :: Pipeline.processFaces st w fs)
    ∧ (∀ f fs r hgt re, st.roomOf f = Option.some r → st.heightOf r = HeightOut.ok hgt →
        hgt ≠ 0 → st.profileOf f hgt = SplitResult.fail re →
        Pipeline.processFaces st w (f :: fs)
          = Pipeline.Log.invalidProfile w hgt :: Pipeline.processFaces st w fs)
    ∧ (∀ f fs, Pipeline.processFace st w f = Except.error () →
        Pipeline.processFaces st w (f :: fs) = [Pipeline.Log.wallError w])
    ∧ (∀ ws, Pipeline.run_pipeline st (w :: ws)
        = Pipeline.processWall st w ++ Pipeline.run_pipeline st ws)
    ∧ (∀ r : Room, r.headroom = Option.none → calculate_room_height r = .invalid) := by
  refine ⟨?_, ?_, ?_, ?_, ?_, ?_⟩
  · intro f fs hroom
    simp [Pipeline.processFaces, Pipeline.processFace, hroom]
  · intro f fs r hroom hinv
    simp [Pipeline.processFaces, Pipeline.processFace, hroom, hinv]
  · intro f fs r hgt re hroom hok hne hprof
    simp [Pipeline.processFaces, Pipeline.processFace, hroom, hok, hne, hprof]
  · intro f fs herr
    simp [Pipeline.processFaces, herr]
  · intro ws
    rfl
  · intro r hr
    unfold calculate_room_height
    rw [hr]

/-- Witness for C8: the scenario of the spec — first face's room lacks
the attribute, the failure is recorded and the second face of the same
wall is still processed. -/
theorem pipeline_failure_isolation_witness :
    calculate_room_height roomNoAttr = .invalid
    ∧ Pipeline.processFaces st0 5 [0, 1]
        = Pipeline.Log.invalidHeight 5 :: Pipeline.processFaces st0 5 [1] := by
  have hinv : calculate_room_height roomNoAttr = .invalid :=
    (pipeline_failure_isolation st0 5).2.2.2.2.2 roomNoAttr rfl
  refine ⟨hinv, ?_⟩
  exact (pipeline_failure_isolation st0 5).2.1 0 [1] roomNoAttr (by simp [st0]) hinv

/-- Counterexample to claim C9: a wall whose geometry yields zero
qualifying side faces produces no exception and an empty face list, but
the pipeline then records nothing at all for that wall — there is no
NoSideFaces failure record; the wall is passed over silently. -/
theorem no_side_faces_counterexample :
    get_vertical_faces geo1 = [] ∧ Pipeline.run_pipeline st1 [3] = [] := by
  have hfaces : get_vertical_faces geo1 = [] := by
    norm_num [get_vertical_faces, geo1, flatFace]
  refine ⟨hfaces, ?_⟩
  simp [Pipeline.run_pipeline, Pipeline.processWall, st1, hfaces, Pipeline.processFaces]

/-- Amended claim C9: the side-face selector returns an empty sequence
(the characterization below) rather than raising, and the pipeline then
records nothing for such a wall and silently continues with the
remaining walls. -/
theorem no_side_faces_silent {W F R I : Type} (st : Pipeline.Stages W F R I) (w : W)
    (ws : List W) (hf : st.faces w = []) :
    Pipeline.run_pipeline st (w :: ws) = Pipeline.run_pipeline st ws
    ∧ ∀ geo : List GeoObj, get_vertical_faces geo = [] ↔
        ∀ g ∈ geo, ∀ fs, g = GeoObj.solid fs →
          ∀ f ∈ fs, ¬(f.planar = true ∧ |f.normal.z| < 1 / 100) := by
  constructor
  · show Pipeline.processWall st w ++ Pipeline.run_pipeline st ws
      = Pipeline.run_pipeline st ws
    rw [Pipeline.processWall, hf]
    rfl
  · intro geo
    rw [get_vertical_faces, List.flatMap_eq_nil_iff]
    constructor
    · intro hall g hg fs hgfs f hfmem hcon
      have hnil := hall g hg
      rw [hgfs] at hnil
      have hpred := List.filter_eq_nil_iff.mp hnil f hfmem
      apply hpred
      simp only [hcon.1, Bool.true_and, decide_eq_true_eq]
      exact hcon.2
    · intro hall g hg
      cases g with
      | other => rfl
      | solid fs =>
        show fs.filter _ = []
        rw [List.filter_eq_nil_iff]
        intro f hfmem hcon
        rw [Bool.and_eq_true] at hcon
        exact hall (GeoObj.solid fs) hg fs rfl f hfmem ⟨hcon.1, by simpa using hcon.2⟩

/-- Witness for the amended claim C9 on the concrete degenerate wall. -/
theorem no_side_faces_silent_witness :
    Pipeline.run_pipeline st1 [3] = Pipeline.run_pipeline st1 []
    ∧ ∀ geo : List GeoObj, get_vertical_faces geo = [] ↔
        ∀ g ∈ geo, ∀ fs, g = GeoObj.solid fs →
          ∀ f ∈ fs, ¬(f.planar = true ∧ |f.normal.z| < 1 / 100) := by
  refine no_side_faces_silent st1 3 [] ?_
  norm_num [st1, get_vertical_faces, geo1, flatFace]

/-- Claim C10: `create_split_profile` is total at its interface: an
exception escaping the `try` body is converted into the `None` return
(`pyError`), a normal body return is passed through unchanged, and every
result is either a profile or a `None` with a failure reason — the
caller never observes an exception. -/
theorem create_split_profile_total (t : ℚ) (face : Face) (hgt : ℚ) :
    (create_split_profile_unguarded t face hgt = .raised →
        create_split_profile t face hgt = .fail .pyError)
    ∧ (∀ r, create_split_profile_unguarded t face hgt = .done r →
        create_split_profile t face hgt = r)
    ∧ ((∃ p, create_split_profile t face hgt = .ok p)
        ∨ ∃ re, create_split_profile t face hgt = .fail re) := by
  refine ⟨?_, ?_, ?_⟩
  · intro hb
    rw [create_split_profile, hb]
  · intro r hb
    rw [create_split_profile, hb]
  · cases hres : create_split_profile t face hgt with
    | ok p => exact Or.inl ⟨p, rfl⟩
    | fail re => exact Or.inr ⟨re, rfl⟩

/-- Witness for C10: a face without edge loops makes the body raise, and
the wrapper converts the exception into the `None` return. -/
theorem create_split_profile_total_witness :
    create_split_profile_unguarded (1 / 100) emptyFace 1 = .raised
    ∧ create_split_profile (1 / 100) emptyFace 1 = .fail .pyError := by
  have hb : create_split_profile_unguarded (1 / 100) emptyFace 1 = .raised := by
    norm_num [create_split_profile_unguarded, emptyFace]
  exact ⟨hb, (create_split_profile_total (1 / 100) emptyFace 1).1 hb⟩

end WallSplit
